import Mathlib

/-!
Verification of the OBS RTX SuperResolution filter core
(src/nvidia-superresolution-filter.c) against its specification.

The C source is shallowly embedded: pure functions become Lean functions on
Nat/Int/Rat, the mutable filter struct becomes an explicit state record, and
SDK calls whose results drive control flow become explicit status parameters.
Machine integers are modelled as Nat; the one place where uint32 wrap-around
matters (the cross multiplication inside validate_source_size) takes an
explicit mod 2^32.  The float arithmetic of get_scale_factor appears twice:
get_scale_factor is the exact rational embedding (the scale constants 1.5f,
2.0f, 3.0f and 4.0f are exact dyadic rationals, and 4.0f/3.0f is the exact
single precision value 11184811/8388608; the rounded value
trunc(in * (n/d) + 0.5) is written with Nat division as
(2*in*n + d) / (2*d), proved equal to the rational floor below), while
get_scale_factor_f32 models the single precision pipeline itself, rounding
to nearest even at 24 bits after the integer conversion, the
multiplication and the addition of 0.5f.  The two are proved to agree on
the whole validated input range, and to diverge at an input of 2^24 + 1.
-/

namespace SuperRes

/-- Filter type constants from the C header block (S_TYPE_NONE / S_TYPE_SR /
S_TYPE_UP). -/
def S_TYPE_NONE : Int := 0

/-- Super resolution filter type. -/
def S_TYPE_SR : Int := 1

/-- Plain upscaling filter type. -/
def S_TYPE_UP : Int := 2

/-- Scale selector constants (indices into nv_type_resolutions). -/
def S_SCALE_NONE : Nat := 0

/-- Scale selector for the 1.33x factor. -/
def S_SCALE_133x : Nat := 1

/-- Scale selector for the 1.5x factor. -/
def S_SCALE_15x : Nat := 2

/-- Scale selector for the 2x factor. -/
def S_SCALE_2x : Nat := 3

/-- Scale selector for the 3x factor. -/
def S_SCALE_3x : Nat := 4

/-- Scale selector for the 4x factor. -/
def S_SCALE_4x : Nat := 5

/-- Number of scale selectors. -/
def S_SCALE_N : Nat := 6

/-- Modulus of uint32 arithmetic. -/
def UINT32_MOD : Nat := 4294967296

/-- The per scale factor inclusive resolution bound table
(nv_type_resolutions in the C source, lines 117-125): for each scale
selector, ((min_width, min_height), (max_width, max_height)).  Indices
outside the table are never accessed by the source (they are guarded by the
scale < S_SCALE_N check); the default row returned here is arbitrary. -/
def nv_type_resolutions (scale : Nat) : (Nat × Nat) × (Nat × Nat) :=
  if scale = S_SCALE_NONE then ((160, 90), (1920, 1080))
  else if scale = S_SCALE_133x then ((160, 90), (3840, 2160))
  else if scale = S_SCALE_15x then ((160, 90), (3840, 2160))
  else if scale = S_SCALE_2x then ((160, 90), (1920, 1080))
  else if scale = S_SCALE_3x then ((160, 90), (1280, 720))
  else ((160, 90), (960, 540))

/-- Embedding of validate_source_size (C source lines 307-324).  The uint32
products of the cross multiplication are taken mod 2^32 exactly as the C
multiplication wraps; the bound check reads the nv_type_resolutions row of
the scale selector and tests only the INPUT size (x1, y1) against it. -/
def validate_source_size (scale x1 y1 x2 y2 : Nat) : Bool :=
  if S_SCALE_N ≤ scale then false
  else if (x1 * y2) % UINT32_MOD ≠ (y1 * x2) % UINT32_MOD then false
  else
    decide ((nv_type_resolutions scale).1.1 ≤ x1 ∧ x1 ≤ (nv_type_resolutions scale).2.1 ∧
            (nv_type_resolutions scale).1.2 ≤ y1 ∧ y1 ≤ (nv_type_resolutions scale).2.2)

/-- Embedding of get_scale_factor (C source lines 265-291).  The switch
selects a scale constant (here the exact rational value n/d of the float
constant the C code uses; the default case, reached for S_SCALE_NONE and any
out of range selector, leaves scale = 1.0f) and the output is
(uint32_t)(in * scale + 0.5f), written with Nat division as
(2*in*n + d) / (2*d). -/
def get_scale_factor (s_scale in_x in_y : Nat) : Nat × Nat :=
  let nd : Nat × Nat :=
    if s_scale = S_SCALE_133x then (11184811, 8388608)
    else if s_scale = S_SCALE_15x then (3, 2)
    else if s_scale = S_SCALE_2x then (2, 1)
    else if s_scale = S_SCALE_3x then (3, 1)
    else if s_scale = S_SCALE_4x then (4, 1)
    else (1, 1)
  ((2 * in_x * nd.1 + nd.2) / (2 * nd.2), (2 * in_y * nd.1 + nd.2) / (2 * nd.2))

/-- The scale factor of each selector as a rational number, as the
specification describes it (the 1.33x row is the exact single precision
value of 4.0f/3.0f used by the code). -/
def spec_scale_factor (s_scale : Nat) : ℚ :=
  if s_scale = S_SCALE_133x then 11184811 / 8388608
  else if s_scale = S_SCALE_15x then 3 / 2
  else if s_scale = S_SCALE_2x then 2
  else if s_scale = S_SCALE_3x then 3
  else if s_scale = S_SCALE_4x then 4
  else 1

/-- Number of low bits that rounding to a 24 bit significand drops from a
positive numerator: zero when the numerator already fits in 24 bits, else
its bit length minus 24.  Written as a comparison chain up to 2^60, which
covers every numerator arising from a uint32 input in this model (at most
2^32 * 11184811 * 2 + 2^23 < 2^57). -/
def sig_shift (num : Nat) : Nat :=
  if num < 16777216 then 0
  else if num < 33554432 then 1
  else if num < 67108864 then 2
  else if num < 134217728 then 3
  else if num < 268435456 then 4
  else if num < 536870912 then 5
  else if num < 1073741824 then 6
  else if num < 2147483648 then 7
  else if num < 4294967296 then 8
  else if num < 8589934592 then 9
  else if num < 17179869184 then 10
  else if num < 34359738368 then 11
  else if num < 68719476736 then 12
  else if num < 137438953472 then 13
  else if num < 274877906944 then 14
  else if num < 549755813888 then 15
  else if num < 1099511627776 then 16
  else if num < 2199023255552 then 17
  else if num < 4398046511104 then 18
  else if num < 8796093022208 then 19
  else if num < 17592186044416 then 20
  else if num < 35184372088832 then 21
  else if num < 70368744177664 then 22
  else if num < 140737488355328 then 23
  else if num < 281474976710656 then 24
  else if num < 562949953421312 then 25
  else if num < 1125899906842624 then 26
  else if num < 2251799813685248 then 27
  else if num < 4503599627370496 then 28
  else if num < 9007199254740992 then 29
  else if num < 18014398509481984 then 30
  else if num < 36028797018963968 then 31
  else if num < 72057594037927936 then 32
  else if num < 144115188075855872 then 33
  else if num < 288230376151711744 then 34
  else if num < 576460752303423488 then 35
  else if num < 1152921504606846976 then 36
  else 37

/-- Round num to a multiple of 2^shift, to nearest with ties to even. -/
def rne_shift (num shift : Nat) : Nat :=
  if shift = 0 then num
  else
    let q := num / 2 ^ shift
    let r := num % 2 ^ shift
    let half := 2 ^ (shift - 1)
    let qr :=
      if half < r then q + 1
      else if r < half then q
      else if q % 2 = 0 then q else q + 1
    qr * 2 ^ shift

/-- IEEE single precision rounding (round to nearest, ties to even) of the
nonnegative dyadic value num / 2^k, acting on the numerator: a power of two
denominator does not change the significand, so rounding the value to 24
significant bits is rounding num to its top 24 bits.  Exponent overflow and
subnormals are out of range for the magnitudes of this model. -/
def f32_round (num : Nat) : Nat := rne_shift num (sig_shift num)

/-- Single precision model of one dimension of get_scale_factor (C source
lines 265-291): the uint32 input is converted to float (rounded to 24
bits), multiplied by the float scale constant (held exactly as n / 2^k,
product rounded), 0.5f is added (sum rounded over the denominator
2^(k+1)), and the float result is truncated by the uint32 cast.  Both
dimensions of the C function run this same computation. -/
def get_scale_factor_f32 (s_scale in_x : Nat) : Nat :=
  let nk : Nat × Nat :=
    if s_scale = S_SCALE_133x then (11184811, 23)
    else if s_scale = S_SCALE_15x then (3, 1)
    else if s_scale = S_SCALE_2x then (2, 0)
    else if s_scale = S_SCALE_3x then (3, 0)
    else if s_scale = S_SCALE_4x then (4, 0)
    else (1, 0)
  let xf := f32_round in_x
  let prod := f32_round (xf * nk.1)
  let sum := f32_round (prod * 2 + 2 ^ nk.2)
  sum / 2 ^ (nk.2 + 1)

/-- Pixel format contracts of the pipeline buffers: planar 32 bit float
(value range 0..1) versus interleaved (chunky) 8 bit (value range 0..255). -/
inductive NvImageFormat
| planar_f32
| chunky_u8
deriving DecidableEq

/-- The image buffers of the filter struct that take part in the per frame
transfer sequence of process_texture_superres. -/
inductive NvBuffer
| src_img
| gpu_ar_src_img
| gpu_ar_dst_img
| gpu_sr_src_img
| gpu_sr_dst_img
| gpu_dst_tmp_img
| dst_img
deriving DecidableEq

/-- Pixel format of each buffer as allocated by the source: the artifact
reduction buffers are always planar BGR f32 (alloc_ar_images); the super
resolution buffers are planar BGR f32 for S_TYPE_SR and chunky RGBA u8 for
S_TYPE_UP (alloc_sr_source_images and alloc_sr_dest_images); src_img,
gpu_dst_tmp_img and dst_img are chunky RGBA u8. -/
def buffer_format (ty : Int) : NvBuffer → NvImageFormat
  | NvBuffer.src_img => NvImageFormat.chunky_u8
  | NvBuffer.gpu_ar_src_img => NvImageFormat.planar_f32
  | NvBuffer.gpu_ar_dst_img => NvImageFormat.planar_f32
  | NvBuffer.gpu_sr_src_img =>
      if ty = S_TYPE_SR then NvImageFormat.planar_f32 else NvImageFormat.chunky_u8
  | NvBuffer.gpu_sr_dst_img =>
      if ty = S_TYPE_SR then NvImageFormat.planar_f32 else NvImageFormat.chunky_u8
  | NvBuffer.gpu_dst_tmp_img => NvImageFormat.chunky_u8
  | NvBuffer.dst_img => NvImageFormat.chunky_u8

/-- One NvCVImage_Transfer call: source buffer, destination buffer, and the
scalar intensity multiplier passed to the SDK. -/
structure NvTransfer where
  src : NvBuffer
  dst : NvBuffer
  scale : ℚ
deriving DecidableEq

/-- The ordered NvCVImage_Transfer calls issued by the success path of
process_texture_superres (C source lines 1138-1256), as a function of
whether the artifact reduction handle exists (ar_handle) and of the filter
type (the super resolution handle exists exactly when the type is not
S_TYPE_NONE).  Map and unmap calls are not modelled; the claims concern the
transfer multipliers. -/
def process_texture_superres (ar_handle : Bool) (ty : Int) : List NvTransfer :=
  [⟨NvBuffer.src_img,
    if ar_handle then NvBuffer.gpu_ar_src_img
    else if ty ≠ S_TYPE_NONE then NvBuffer.gpu_sr_src_img
    else NvBuffer.gpu_dst_tmp_img,
    if ar_handle then 1 / 255 else 1⟩] ++
  (if ar_handle then
    [⟨NvBuffer.gpu_ar_dst_img,
      if ty = S_TYPE_NONE then NvBuffer.gpu_dst_tmp_img else NvBuffer.gpu_sr_src_img,
      255⟩]
   else []) ++
  (if ty ≠ S_TYPE_NONE then
    [⟨NvBuffer.gpu_sr_dst_img,
      if ty = S_TYPE_UP then NvBuffer.dst_img else NvBuffer.gpu_dst_tmp_img,
      if ar_handle = true ∧ ty = S_TYPE_SR then 255 else 1⟩]
   else []) ++
  (if ty ≠ S_TYPE_UP then [⟨NvBuffer.gpu_dst_tmp_img, NvBuffer.dst_img, 1⟩] else [])

/-- Status codes of the vendor SDK calls that drive control flow:
NVCV_SUCCESS, the transient device fault NVCV_ERR_CUDA, the geometry
specific NVCV_ERR_RESOLUTION, and every other error code (carried as its
numeric value). -/
inductive NvStatus
| success
| err_cuda
| err_resolution
| err_other (code : Int)
deriving DecidableEq

/-- The filter state record (struct nv_superresolution_data in the C
source), restricted to the fields the claims are about.  Opaque pointers
are modelled by liveness booleans (a pointer is live when the boolean is
true); the CUDA stream additionally carries a generation counter so that
recreation is observable; the visibility of the two global warning
properties is modelled by the warning fields. -/
structure nv_superresolution_data where
  processing_stopped : Bool
  is_target_valid : Bool
  reload_ar_fx : Bool
  reload_sr_fx : Bool
  target_width : Nat
  target_height : Nat
  apply_ar : Bool
  are_images_allocated : Bool
  destroy_ar : Bool
  destroy_sr : Bool
  is_processing : Bool
  destroying : Bool
  stream_alive : Bool
  stream_gen : Nat
  ar_handle : Bool
  sr_handle : Bool
  images_alive : Bool
  scaled_texture : Bool
  render : Bool
  render_unorm : Bool
  effect : Bool
  ar_mode : Int
  sr_mode : Int
  type : Int
  scale : Int
  strength : ℚ
  width : Nat
  height : Nat
  out_width : Nat
  out_height : Nat
  warning_ar_visible : Bool
  warning_sr_visible : Bool

/-- Freshly created filter state (bzalloc followed by the assignments of
nv_superres_filter_create): type defaults to S_TYPE_SR, scale to
S_SCALE_15x, strength to 0.4, everything else zeroed. -/
def initial_filter_data : nv_superresolution_data where
  processing_stopped := false
  is_target_valid := false
  reload_ar_fx := false
  reload_sr_fx := false
  target_width := 0
  target_height := 0
  apply_ar := false
  are_images_allocated := false
  destroy_ar := false
  destroy_sr := false
  is_processing := false
  destroying := false
  stream_alive := false
  stream_gen := 0
  ar_handle := false
  sr_handle := false
  images_alive := false
  scaled_texture := false
  render := false
  render_unorm := false
  effect := false
  ar_mode := 0
  sr_mode := 0
  type := 1
  scale := 2
  strength := 2 / 5
  width := 0
  height := 0
  out_width := 0
  out_height := 0
  warning_ar_visible := false
  warning_sr_visible := false

/-- Embedding of nv_superres_filter_destroy (C source lines 421-429): the
public teardown request.  It queues the actual teardown task at most once,
guarded by the destroying flag; the boolean result records whether the task
was queued by this call. -/
def nv_superres_filter_destroy (s : nv_superresolution_data) :
    nv_superresolution_data × Bool :=
  if s.destroying then (s, false)
  else ({s with destroying := true}, true)

/-- Embedding of create_cuda (C source lines 584-596): destroys the current
CUDA stream and creates a new one.  The status of the external
NvVFX_CudaStreamCreate call is the stream_create_ok parameter; on failure
the nv_error macro with destroy_filter = true queues filter destruction. -/
def create_cuda (stream_create_ok : Bool) (s : nv_superresolution_data) :
    nv_superresolution_data × Bool :=
  let s0 := {s with stream_alive := false}
  if stream_create_ok then
    ({s0 with stream_alive := true, stream_gen := s0.stream_gen + 1}, true)
  else ((nv_superres_filter_destroy s0).1, false)

/-- Embedding of nv_superres_filter_reset (C source lines 1100-1127): sets
processing_stopped, recreates the CUDA stream, flags both stage handles for
destruction and the image set for reallocation, and finally clears
processing_stopped again.  When stream creation fails the function returns
early with processing_stopped still set. -/
def nv_superres_filter_reset (stream_create_ok : Bool)
    (s : nv_superresolution_data) : nv_superresolution_data :=
  let s1 := {s with processing_stopped := true}
  let cr := create_cuda stream_create_ok s1
  if cr.2 then
    {cr.1 with destroy_ar := true, destroy_sr := true, are_images_allocated := false,
               processing_stopped := false}
  else cr.1

/-- Embedding of the status handling around each NvVFX_Run call inside
process_texture_superres (C source lines 1175-1204): NVCV_ERR_CUDA triggers
nv_superres_filter_reset and aborts the frame; any other failure sets
processing_stopped and aborts the frame (the nv_error macro with
destroy_filter = false); success continues.  The boolean result records
whether the frame continues. -/
def process_run_result (st : NvStatus) (stream_create_ok : Bool)
    (s : nv_superresolution_data) : nv_superresolution_data × Bool :=
  if st = NvStatus.err_cuda then (nv_superres_filter_reset stream_create_ok s, false)
  else if st ≠ NvStatus.success then ({s with processing_stopped := true}, false)
  else (s, true)

/-- Embedding of load_ar_fx (C source lines 513-539) as a function of the
NvVFX_Load status: on NVCV_ERR_RESOLUTION the AR warning becomes visible,
the reload flag is cleared and false is returned without touching
processing_stopped; on any other failure processing_stopped is set and
false is returned; on success the warning is hidden and the reload flag
cleared. -/
def load_ar_fx (load_status : NvStatus) (s : nv_superresolution_data) :
    nv_superresolution_data × Bool :=
  if load_status ≠ NvStatus.success then
    if load_status ≠ NvStatus.err_resolution then
      ({s with processing_stopped := true}, false)
    else
      ({s with warning_ar_visible := true, reload_ar_fx := false}, false)
  else
    ({s with warning_ar_visible := false, reload_ar_fx := false}, true)

/-- Embedding of load_sr_fx (C source lines 543-579); the error structure is
identical to load_ar_fx, acting on the SR warning and reload flag. -/
def load_sr_fx (load_status : NvStatus) (s : nv_superresolution_data) :
    nv_superresolution_data × Bool :=
  if load_status ≠ NvStatus.success then
    if load_status ≠ NvStatus.err_resolution then
      ({s with processing_stopped := true}, false)
    else
      ({s with warning_sr_visible := true, reload_sr_fx := false}, false)
  else
    ({s with warning_sr_visible := false, reload_sr_fx := false}, true)

/-- Geometry of one NvCVImage buffer (the pixel format and layout parameters
of img_create_params_t accompany every call identically and are omitted). -/
structure NvCVImage where
  width : Nat
  height : Nat
deriving DecidableEq

/-- The SDK allocation calls issued by alloc_image, with their size
arguments. -/
inductive NvImageCall
| create (w h : Nat)
| alloc (w h : Nat)
| realloc (w h : Nat)
| destroy
deriving DecidableEq

/-- Embedding of alloc_image (C source lines 738-787) on its success path:
create_width/create_height are the secondary (envelope) sizes when those
are positive, else the requested sizes.  An existing buffer gets exactly
one in place NvCVImage_Realloc; a missing buffer is created and allocated
at the envelope size and then, when the envelope differs from the
requested size, immediately resized down to it.  The result is the final
buffer geometry together with the ordered list of SDK calls issued. -/
def alloc_image (buffer : Option NvCVImage) (width height width2 height2 : Nat) :
    NvCVImage × List NvImageCall :=
  let create_width := if 0 < width2 then width2 else width
  let create_height := if 0 < height2 then height2 else height
  match buffer with
  | some _ =>
      (⟨create_width, create_height⟩, [NvImageCall.realloc create_width create_height])
  | none =>
      if create_height ≠ height ∨ create_width ≠ width then
        (⟨width, height⟩,
         [NvImageCall.create create_width create_height,
          NvImageCall.alloc create_width create_height,
          NvImageCall.realloc width height])
      else
        (⟨create_width, create_height⟩,
         [NvImageCall.create create_width create_height,
          NvImageCall.alloc create_width create_height])

/-- Events of the whole pipeline teardown sequence, in the order
nv_superres_filter_actual_destroy performs them. -/
inductive TDEvent
| set_stopped
| wait_exit
| free_ar_fx
| free_sr_fx
| free_images
| free_stream
| free_scaled_texture
| free_render
| free_render_unorm
| free_effect
| free_filter
deriving DecidableEq

/-- Conditional singleton used for the release steps that the source guards
by a null check. -/
def td_opt (cond : Bool) (e : TDEvent) : List TDEvent := if cond then [e] else []

/-- A teardown event that releases a resource (everything except raising
the stop flag and exiting the wait loop). -/
def is_free_event : TDEvent → Bool
  | TDEvent.set_stopped => false
  | TDEvent.wait_exit => false
  | _ => true

/-- Embedding of nv_superres_filter_actual_destroy (C source lines 364-413)
with the SDK loaded: first processing_stopped is raised, then the spin
lock waits on is_processing; the function can only complete once the
executor is idle, which is modelled by returning none while is_processing
holds.  After the wait, the stage handles with their buffers, the
standalone image buffers, the CUDA stream, the textures and the effect are
released (each guarded by liveness, as the source guards by null), and
finally the filter struct itself is freed.  The result is the final state
and the ordered event trace. -/
def nv_superres_filter_actual_destroy (s : nv_superresolution_data) :
    Option (nv_superresolution_data × List TDEvent) :=
  let s1 := {s with processing_stopped := true}
  if s1.is_processing then none
  else
    some ({s1 with ar_handle := false, sr_handle := false, images_alive := false,
                   stream_alive := false, scaled_texture := false, render := false,
                   render_unorm := false, effect := false},
      [TDEvent.set_stopped, TDEvent.wait_exit]
      ++ td_opt s1.ar_handle TDEvent.free_ar_fx
      ++ td_opt s1.sr_handle TDEvent.free_sr_fx
      ++ td_opt s1.images_alive TDEvent.free_images
      ++ td_opt s1.stream_alive TDEvent.free_stream
      ++ td_opt s1.scaled_texture TDEvent.free_scaled_texture
      ++ td_opt s1.render TDEvent.free_render
      ++ td_opt s1.render_unorm TDEvent.free_render_unorm
      ++ td_opt s1.effect TDEvent.free_effect
      ++ [TDEvent.free_filter])

/-- The settings values read by nv_superres_filter_update from the OBS
settings object. -/
structure obs_settings where
  type : Int
  sr_mode : Int
  ar_mode : Int
  scale : Int
  apply_ar : Bool
  strength : ℚ
deriving DecidableEq

/-- The OBS EPSILON constant (1e-4f from the OBS math header) used by the
strength comparison. -/
def EPSILON : ℚ := 1 / 10000

/-- Step of nv_superres_filter_update for the filter type block (C source
lines 637-641). -/
def upd_type (v : obs_settings) (s : nv_superresolution_data) : nv_superresolution_data :=
  if s.type ≠ v.type then {s with type := v.type, destroy_sr := true} else s

/-- Step of nv_superres_filter_update for the sr mode block (C source lines
643-647). -/
def upd_sr_mode (v : obs_settings) (s : nv_superresolution_data) : nv_superresolution_data :=
  if s.sr_mode ≠ v.sr_mode then {s with sr_mode := v.sr_mode, reload_sr_fx := true} else s

/-- Step of nv_superres_filter_update for the artifact reduction toggle
block (C source lines 649-661). -/
def upd_apply_ar (v : obs_settings) (s : nv_superresolution_data) : nv_superresolution_data :=
  if s.apply_ar ≠ v.apply_ar then
    if v.apply_ar then {s with apply_ar := v.apply_ar, reload_ar_fx := true}
    else {s with apply_ar := v.apply_ar, destroy_ar := true}
  else s

/-- Step of nv_superres_filter_update for the artifact reduction mode block
(C source lines 663-671). -/
def upd_ar_mode (v : obs_settings) (s : nv_superresolution_data) : nv_superresolution_data :=
  if s.apply_ar = true ∧ s.ar_mode ≠ v.ar_mode then
    {s with ar_mode := v.ar_mode, reload_ar_fx := true}
  else s

/-- Step of nv_superres_filter_update for the upscaling strength block (C
source lines 673-681). -/
def upd_strength (v : obs_settings) (s : nv_superresolution_data) : nv_superresolution_data :=
  if v.type = S_TYPE_UP ∧ EPSILON < |v.strength - s.strength| then
    {s with strength := v.strength, reload_sr_fx := true}
  else s

/-- Embedding of nv_superres_filter_update (C source lines 628-682): the
scale is copied unconditionally, then the sequential guarded blocks for
type, sr mode, artifact reduction toggle, artifact reduction mode and
upscaling strength run in source order, each raising the matching reload or
destroy flag when its setting changed. -/
def nv_superres_filter_update (s : nv_superresolution_data) (v : obs_settings) :
    nv_superresolution_data :=
  upd_strength v (upd_ar_mode v (upd_apply_ar v (upd_sr_mode v (upd_type v
    {s with scale := v.scale}))))

/-- Embedding of nv_superres_filter_width (C source lines 1916-1921). -/
def nv_superres_filter_width (s : nv_superresolution_data) : Nat :=
  if s.is_target_valid && !s.processing_stopped then s.out_width else s.target_width

/-- Embedding of nv_superrer_filter_height (C source lines 1925-1930, name
as in the source). -/
def nv_superrer_filter_height (s : nv_superresolution_data) : Nat :=
  if s.is_target_valid && !s.processing_stopped then s.out_height else s.target_height

/-- The Nat division form of the half up rounding used by get_scale_factor
equals the rational floor of in * (n/d) + 1/2. -/
theorem nat_div_round_eq_floor (x n d : Nat) (hd : 0 < d) :
    (2 * x * n + d) / (2 * d) = ⌊(x : ℚ) * ((n : ℚ) / (d : ℚ)) + 1 / 2⌋₊ := by
  have h : (x : ℚ) * ((n : ℚ) / (d : ℚ)) + 1 / 2 =
      ((2 * x * n + d : ℕ) : ℚ) / ((2 * d : ℕ) : ℚ) := by
    have hd0 : (d : ℚ) ≠ 0 := by positivity
    push_cast
    field_simp
    ring
  rw [h, Nat.floor_div_nat, Nat.floor_natCast]

/-- Monotonicity of the rounded scaling in the input dimension. -/
theorem scaled_le_scaled (h H n d : Nat) (hh : h ≤ H) :
    (2 * h * n + d) / (2 * d) ≤ (2 * H * n + d) / (2 * d) := by
  apply Nat.div_le_div_right
  gcongr

/-- The product of an in bounds dimension with a rounded scaled dimension
stays below 2^32. -/
theorem mul_scaled_lt (w h maxw maxh n d : Nat) (hw : w ≤ maxw) (hh : h ≤ maxh)
    (hlt : maxw * ((2 * maxh * n + d) / (2 * d)) < UINT32_MOD) :
    w * ((2 * h * n + d) / (2 * d)) < UINT32_MOD :=
  lt_of_le_of_lt (Nat.mul_le_mul hw (scaled_le_scaled h maxh n d hh)) hlt

/-- On inputs within the bound table of a valid scale selector, both cross
multiplication products are below 2^32, so the uint32 multiplication does
not wrap. -/
theorem products_lt (scale w h : Nat) (hs : scale < S_SCALE_N)
    (hw : w ≤ (nv_type_resolutions scale).2.1) (hh : h ≤ (nv_type_resolutions scale).2.2) :
    w * (get_scale_factor scale w h).2 < UINT32_MOD ∧
      h * (get_scale_factor scale w h).1 < UINT32_MOD := by
  have hs6 : scale < 6 := hs
  interval_cases scale
  · exact ⟨mul_scaled_lt w h 1920 1080 1 1 hw hh (by norm_num [UINT32_MOD]),
      mul_scaled_lt h w 1080 1920 1 1 hh hw (by norm_num [UINT32_MOD])⟩
  · exact ⟨mul_scaled_lt w h 3840 2160 11184811 8388608 hw hh (by norm_num [UINT32_MOD]),
      mul_scaled_lt h w 2160 3840 11184811 8388608 hh hw (by norm_num [UINT32_MOD])⟩
  · exact ⟨mul_scaled_lt w h 3840 2160 3 2 hw hh (by norm_num [UINT32_MOD]),
      mul_scaled_lt h w 2160 3840 3 2 hh hw (by norm_num [UINT32_MOD])⟩
  · exact ⟨mul_scaled_lt w h 1920 1080 2 1 hw hh (by norm_num [UINT32_MOD]),
      mul_scaled_lt h w 1080 1920 2 1 hh hw (by norm_num [UINT32_MOD])⟩
  · exact ⟨mul_scaled_lt w h 1280 720 3 1 hw hh (by norm_num [UINT32_MOD]),
      mul_scaled_lt h w 720 1280 3 1 hh hw (by norm_num [UINT32_MOD])⟩
  · exact ⟨mul_scaled_lt w h 960 540 4 1 hw hh (by norm_num [UINT32_MOD]),
      mul_scaled_lt h w 540 960 4 1 hh hw (by norm_num [UINT32_MOD])⟩

/-- Claim C1: for every scale selector in the enumerated set and every input
(w, h) with computed output (ow, oh) = get_scale_factor, validate_source_size
returns true when the integer cross multiplication w*oh = h*ow holds and the
input lies within the inclusive bound table row of that selector, and it
returns false when the input is outside the bound row or the cross
multiplication does not match. -/
theorem validate_source_size_spec (scale w h : Nat) (hs : scale < S_SCALE_N) :
    ((w * (get_scale_factor scale w h).2 = h * (get_scale_factor scale w h).1 ∧
      (nv_type_resolutions scale).1.1 ≤ w ∧ w ≤ (nv_type_resolutions scale).2.1 ∧
      (nv_type_resolutions scale).1.2 ≤ h ∧ h ≤ (nv_type_resolutions scale).2.2) →
      validate_source_size scale w h (get_scale_factor scale w h).1
        (get_scale_factor scale w h).2 = true) ∧
    ((¬ ((nv_type_resolutions scale).1.1 ≤ w ∧ w ≤ (nv_type_resolutions scale).2.1 ∧
         (nv_type_resolutions scale).1.2 ≤ h ∧ h ≤ (nv_type_resolutions scale).2.2) ∨
      w * (get_scale_factor scale w h).2 ≠ h * (get_scale_factor scale w h).1) →
      validate_source_size scale w h (get_scale_factor scale w h).1
        (get_scale_factor scale w h).2 = false) := by
  constructor
  · rintro ⟨hcross, hb1, hb2, hb3, hb4⟩
    unfold validate_source_size
    rw [if_neg (by omega), if_neg (by simp [hcross])]
    exact decide_eq_true ⟨hb1, hb2, hb3, hb4⟩
  · intro hcase
    unfold validate_source_size
    rw [if_neg (by omega)]
    by_cases hmod : (w * (get_scale_factor scale w h).2) % UINT32_MOD ≠
        (h * (get_scale_factor scale w h).1) % UINT32_MOD
    · rw [if_pos hmod]
    · rw [if_neg hmod]
      push_neg at hmod
      rcases hcase with hnb | hne
      · exact decide_eq_false hnb
      · by_cases hb : (nv_type_resolutions scale).1.1 ≤ w ∧
            w ≤ (nv_type_resolutions scale).2.1 ∧
            (nv_type_resolutions scale).1.2 ≤ h ∧ h ≤ (nv_type_resolutions scale).2.2
        · exfalso
          obtain ⟨hp1, hp2⟩ := products_lt scale w h hs hb.2.1 hb.2.2.2
          exact hne (by rwa [Nat.mod_eq_of_lt hp1, Nat.mod_eq_of_lt hp2] at hmod)
        · exact decide_eq_false hb

/-- Witness for C1 at the 1.5x selector on the 1280x720 input. -/
theorem validate_source_size_spec_witness :
    validate_source_size S_SCALE_15x 1280 720 (get_scale_factor S_SCALE_15x 1280 720).1
      (get_scale_factor S_SCALE_15x 1280 720).2 = true :=
  (validate_source_size_spec S_SCALE_15x 1280 720 (by decide)).1
    ⟨by decide, by decide, by decide, by decide, by decide⟩

/-- Single precision rounding is the identity below 2^24. -/
theorem f32_round_eq_of_lt (m : Nat) (h : m < 16777216) : f32_round m = m := by
  have hs : sig_shift m = 0 := by
    unfold sig_shift
    rw [if_pos h]
  unfold f32_round
  rw [hs]
  rfl

set_option maxRecDepth 40000 in
set_option maxHeartbeats 2000000 in
/-- The 1.33x single precision computation agrees with the exact rounding
on inputs 0 to 960. -/
theorem agree_133_chunk0 :
    ∀ y : Nat, y ≤ 960 →
      get_scale_factor_f32 S_SCALE_133x y = (get_scale_factor S_SCALE_133x y y).1 := by
  decide

set_option maxRecDepth 40000 in
set_option maxHeartbeats 2000000 in
/-- The 1.33x single precision computation agrees with the exact rounding
on inputs 961 to 1921. -/
theorem agree_133_chunk1 :
    ∀ y : Nat, y ≤ 960 →
      get_scale_factor_f32 S_SCALE_133x (961 + y) =
        (get_scale_factor S_SCALE_133x (961 + y) (961 + y)).1 := by
  decide

set_option maxRecDepth 40000 in
set_option maxHeartbeats 2000000 in
/-- The 1.33x single precision computation agrees with the exact rounding
on inputs 1922 to 2882. -/
theorem agree_133_chunk2 :
    ∀ y : Nat, y ≤ 960 →
      get_scale_factor_f32 S_SCALE_133x (1922 + y) =
        (get_scale_factor S_SCALE_133x (1922 + y) (1922 + y)).1 := by
  decide

set_option maxRecDepth 40000 in
set_option maxHeartbeats 2000000 in
/-- The 1.33x single precision computation agrees with the exact rounding
on inputs 2883 to 3843. -/
theorem agree_133_chunk3 :
    ∀ y : Nat, y ≤ 960 →
      get_scale_factor_f32 S_SCALE_133x (2883 + y) =
        (get_scale_factor S_SCALE_133x (2883 + y) (2883 + y)).1 := by
  decide

/-- The 1.33x single precision computation agrees with the exact rounding
on the whole validated range. -/
theorem agree_133 (x : Nat) (hx : x ≤ 3840) :
    get_scale_factor_f32 S_SCALE_133x x = (get_scale_factor S_SCALE_133x x x).1 := by
  rcases Nat.lt_or_ge x 961 with h | h
  · exact agree_133_chunk0 x (by omega)
  · rcases Nat.lt_or_ge x 1922 with h2 | h2
    · obtain ⟨y, rfl⟩ : ∃ y, x = 961 + y := ⟨x - 961, by omega⟩
      exact agree_133_chunk1 y (by omega)
    · rcases Nat.lt_or_ge x 2883 with h3 | h3
      · obtain ⟨y, rfl⟩ : ∃ y, x = 1922 + y := ⟨x - 1922, by omega⟩
        exact agree_133_chunk2 y (by omega)
      · obtain ⟨y, rfl⟩ : ∃ y, x = 2883 + y := ⟨x - 2883, by omega⟩
        exact agree_133_chunk3 y (by omega)

/-- Claim C2 counterexample: at the 2x selector and input 2^24 + 1 the
single precision computation of the code yields 33554432 (the integer to
float conversion already rounds 16777217 to 16777216), while rounding half
up as the claim states yields 33554434, so the claim fails for inputs
outside the validated range. -/
theorem get_scale_factor_float_divergence :
    get_scale_factor_f32 S_SCALE_2x 16777217 = 33554432 ∧
    get_scale_factor S_SCALE_2x 16777217 16777217 = (33554434, 33554434) ∧
    (33554432 : Nat) ≠ 33554434 := by
  decide

/-- Claim C2 as amended: on every input within the validated bound range
(each dimension at most 3840, covering every size the bound table admits),
the single precision computation of the code equals trunc(in * factor +
0.5) with the factor the rational scale value of the selector, for every
selector; the exact embedding get_scale_factor is that rounding in both
dimensions; the computation is deterministic; and the 1.5x factor applied
to 1280x720 yields 1920x1080. -/
theorem get_scale_factor_bounded_spec :
    (∀ s x : Nat, x ≤ 3840 →
        get_scale_factor_f32 s x = (get_scale_factor s x x).1) ∧
    (∀ s x y : Nat,
        get_scale_factor s x y =
          (⌊(x : ℚ) * spec_scale_factor s + 1 / 2⌋₊,
           ⌊(y : ℚ) * spec_scale_factor s + 1 / 2⌋₊)) ∧
    (∀ s x y x2 y2 : Nat, x = x2 → y = y2 →
        get_scale_factor s x y = get_scale_factor s x2 y2) ∧
    get_scale_factor S_SCALE_15x 1280 720 = (1920, 1080) := by
  refine ⟨?_, ?_, ?_, by decide⟩
  · intro s x hx
    by_cases h1 : s = S_SCALE_133x
    · subst h1
      exact agree_133 x hx
    · by_cases h2 : s = S_SCALE_15x
      · subst h2
        show f32_round (f32_round (f32_round x * 3) * 2 + 2) / 4 = (2 * x * 3 + 2) / (2 * 2)
        rw [f32_round_eq_of_lt x (by omega), f32_round_eq_of_lt (x * 3) (by omega),
            f32_round_eq_of_lt (x * 3 * 2 + 2) (by omega)]
        omega
      · by_cases h3 : s = S_SCALE_2x
        · subst h3
          show f32_round (f32_round (f32_round x * 2) * 2 + 1) / 2 = (2 * x * 2 + 1) / (2 * 1)
          rw [f32_round_eq_of_lt x (by omega), f32_round_eq_of_lt (x * 2) (by omega),
              f32_round_eq_of_lt (x * 2 * 2 + 1) (by omega)]
          omega
        · by_cases h4 : s = S_SCALE_3x
          · subst h4
            show f32_round (f32_round (f32_round x * 3) * 2 + 1) / 2 = (2 * x * 3 + 1) / (2 * 1)
            rw [f32_round_eq_of_lt x (by omega), f32_round_eq_of_lt (x * 3) (by omega),
                f32_round_eq_of_lt (x * 3 * 2 + 1) (by omega)]
            omega
          · by_cases h5 : s = S_SCALE_4x
            · subst h5
              show f32_round (f32_round (f32_round x * 4) * 2 + 1) / 2 =
                (2 * x * 4 + 1) / (2 * 1)
              rw [f32_round_eq_of_lt x (by omega), f32_round_eq_of_lt (x * 4) (by omega),
                  f32_round_eq_of_lt (x * 4 * 2 + 1) (by omega)]
              omega
            · unfold get_scale_factor_f32 get_scale_factor
              simp only [if_neg h1, if_neg h2, if_neg h3, if_neg h4, if_neg h5]
              show f32_round (f32_round (f32_round x * 1) * 2 + 1) / 2 =
                (2 * x * 1 + 1) / (2 * 1)
              rw [f32_round_eq_of_lt x (by omega), f32_round_eq_of_lt (x * 1) (by omega),
                  f32_round_eq_of_lt (x * 1 * 2 + 1) (by omega)]
              omega
  · intro s x y
    simp only [get_scale_factor, spec_scale_factor]
    split_ifs <;>
      rw [nat_div_round_eq_floor _ _ _ (by norm_num),
          nat_div_round_eq_floor _ _ _ (by norm_num)] <;>
      norm_num
  · intro s x y x2 y2 hx hy
    rw [hx, hy]

/-- Witness for C2: the single precision and exact computations agree at
the 1.5x selector on 1280, and the concrete 1.5x example holds. -/
theorem get_scale_factor_bounded_spec_witness :
    get_scale_factor_f32 S_SCALE_15x 1280 = (get_scale_factor S_SCALE_15x 1280 1280).1 ∧
    get_scale_factor S_SCALE_15x 1280 720 = (1920, 1080) :=
  ⟨get_scale_factor_bounded_spec.1 S_SCALE_15x 1280 (by decide),
   get_scale_factor_bounded_spec.2.2.2⟩

/-- Claim C3 evaluation: at the 1.5x selector, the input 2880x1620 is inside
the bound table and the aspect cross multiplication with the computed output
4320x2430 matches, yet the output is outside the bound table; the code still
returns true, contradicting the contract stated in its own doc comment that
the output resolution must also fall within the bounds. -/
theorem validate_ignores_output_bounds :
    get_scale_factor S_SCALE_15x 2880 1620 = (4320, 2430) ∧
    validate_source_size S_SCALE_15x 2880 1620 4320 2430 = true ∧
    ¬ (4320 ≤ (nv_type_resolutions S_SCALE_15x).2.1 ∧
       2430 ≤ (nv_type_resolutions S_SCALE_15x).2.2) := by
  decide

/-- Claim C4 counterexample: in the configuration with artifact reduction
off and the super resolution type selected, the first transfer goes into
gpu_sr_src_img, whose format is planar float, yet the multiplier used is 1
and not 1/255 as the claim requires for float destinations. -/
theorem first_transfer_scale_counterexample :
    process_texture_superres false S_TYPE_SR =
      [⟨NvBuffer.src_img, NvBuffer.gpu_sr_src_img, 1⟩,
       ⟨NvBuffer.gpu_sr_dst_img, NvBuffer.gpu_dst_tmp_img, 1⟩,
       ⟨NvBuffer.gpu_dst_tmp_img, NvBuffer.dst_img, 1⟩] ∧
    buffer_format S_TYPE_SR NvBuffer.gpu_sr_src_img = NvImageFormat.planar_f32 ∧
    (1 : ℚ) ≠ 1 / 255 := by
  refine ⟨?_, ?_, by norm_num⟩
  · simp [process_texture_superres, S_TYPE_SR, S_TYPE_NONE, S_TYPE_UP]
  · simp [buffer_format]

/-- Claim C4 as amended: in every per frame execution the multiplier of the
source to first stage transfer is 1/255 exactly when artifact reduction is
the first stage and 1 otherwise (in particular it is 1 even when the super
resolution stage with its planar float input comes first); the artifact
reduction output transfer always uses 255 regardless of the consumer
format; and every transfer into the mapped destination texture dst_img uses
multiplier 1. -/
theorem transfer_scales_spec (ar_handle : Bool) (ty : Int) :
    (∀ t ∈ process_texture_superres ar_handle ty,
        t.src = NvBuffer.src_img → t.scale = if ar_handle then (1 : ℚ) / 255 else 1) ∧
    (∀ t ∈ process_texture_superres ar_handle ty,
        t.src = NvBuffer.gpu_ar_dst_img → t.scale = 255) ∧
    (∀ t ∈ process_texture_superres ar_handle ty,
        t.dst = NvBuffer.dst_img → t.scale = 1) := by
  by_cases h0 : ty = S_TYPE_NONE
  · subst h0
    cases ar_handle
    · have hL : process_texture_superres false S_TYPE_NONE =
          [⟨NvBuffer.src_img, NvBuffer.gpu_dst_tmp_img, 1⟩,
           ⟨NvBuffer.gpu_dst_tmp_img, NvBuffer.dst_img, 1⟩] := by
        simp [process_texture_superres, S_TYPE_NONE, S_TYPE_UP]
      refine ⟨?_, ?_, ?_⟩ <;>
        · rw [hL]
          intro t ht h
          fin_cases ht <;> first | rfl | exact absurd h (by decide)
    · have hL : process_texture_superres true S_TYPE_NONE =
          [⟨NvBuffer.src_img, NvBuffer.gpu_ar_src_img, 1 / 255⟩,
           ⟨NvBuffer.gpu_ar_dst_img, NvBuffer.gpu_dst_tmp_img, 255⟩,
           ⟨NvBuffer.gpu_dst_tmp_img, NvBuffer.dst_img, 1⟩] := by
        simp [process_texture_superres, S_TYPE_NONE, S_TYPE_UP]
      refine ⟨?_, ?_, ?_⟩ <;>
        · rw [hL]
          intro t ht h
          fin_cases ht <;> first | rfl | exact absurd h (by decide)
  · by_cases h2 : ty = S_TYPE_UP
    · subst h2
      cases ar_handle
      · have hL : process_texture_superres false S_TYPE_UP =
            [⟨NvBuffer.src_img, NvBuffer.gpu_sr_src_img, 1⟩,
             ⟨NvBuffer.gpu_sr_dst_img, NvBuffer.dst_img, 1⟩] := by
          simp [process_texture_superres, S_TYPE_NONE, S_TYPE_UP, S_TYPE_SR]
        refine ⟨?_, ?_, ?_⟩ <;>
          · rw [hL]
            intro t ht h
            fin_cases ht <;> first | rfl | exact absurd h (by decide)
      · have hL : process_texture_superres true S_TYPE_UP =
            [⟨NvBuffer.src_img, NvBuffer.gpu_ar_src_img, 1 / 255⟩,
             ⟨NvBuffer.gpu_ar_dst_img, NvBuffer.gpu_sr_src_img, 255⟩,
             ⟨NvBuffer.gpu_sr_dst_img, NvBuffer.dst_img, 1⟩] := by
          simp [process_texture_superres, S_TYPE_NONE, S_TYPE_UP, S_TYPE_SR]
        refine ⟨?_, ?_, ?_⟩ <;>
          · rw [hL]
            intro t ht h
            fin_cases ht <;> first | rfl | exact absurd h (by decide)
    · by_cases h1 : ty = S_TYPE_SR
      · subst h1
        cases ar_handle
        · have hL : process_texture_superres false S_TYPE_SR =
              [⟨NvBuffer.src_img, NvBuffer.gpu_sr_src_img, 1⟩,
               ⟨NvBuffer.gpu_sr_dst_img, NvBuffer.gpu_dst_tmp_img, 1⟩,
               ⟨NvBuffer.gpu_dst_tmp_img, NvBuffer.dst_img, 1⟩] := by
            simp [process_texture_superres, S_TYPE_NONE, S_TYPE_UP, S_TYPE_SR]
          refine ⟨?_, ?_, ?_⟩ <;>
            · rw [hL]
              intro t ht h
              fin_cases ht <;> first | rfl | exact absurd h (by decide)
        · have hL : process_texture_superres true S_TYPE_SR =
              [⟨NvBuffer.src_img, NvBuffer.gpu_ar_src_img, 1 / 255⟩,
               ⟨NvBuffer.gpu_ar_dst_img, NvBuffer.gpu_sr_src_img, 255⟩,
               ⟨NvBuffer.gpu_sr_dst_img, NvBuffer.gpu_dst_tmp_img, 255⟩,
               ⟨NvBuffer.gpu_dst_tmp_img, NvBuffer.dst_img, 1⟩] := by
            simp [process_texture_superres, S_TYPE_NONE, S_TYPE_UP, S_TYPE_SR]
          refine ⟨?_, ?_, ?_⟩ <;>
            · rw [hL]
              intro t ht h
              fin_cases ht <;> first | rfl | exact absurd h (by decide)
      · cases ar_handle
        · have hL : process_texture_superres false ty =
              [⟨NvBuffer.src_img, NvBuffer.gpu_sr_src_img, 1⟩,
               ⟨NvBuffer.gpu_sr_dst_img, NvBuffer.gpu_dst_tmp_img, 1⟩,
               ⟨NvBuffer.gpu_dst_tmp_img, NvBuffer.dst_img, 1⟩] := by
            simp [process_texture_superres, h0, h1, h2]
          refine ⟨?_, ?_, ?_⟩ <;>
            · rw [hL]
              intro t ht h
              fin_cases ht <;> first | rfl | exact absurd h (by decide)
        · have hL : process_texture_superres true ty =
              [⟨NvBuffer.src_img, NvBuffer.gpu_ar_src_img, 1 / 255⟩,
               ⟨NvBuffer.gpu_ar_dst_img, NvBuffer.gpu_sr_src_img, 255⟩,
               ⟨NvBuffer.gpu_sr_dst_img, NvBuffer.gpu_dst_tmp_img, 1⟩,
               ⟨NvBuffer.gpu_dst_tmp_img, NvBuffer.dst_img, 1⟩] := by
            simp [process_texture_superres, h0, h1, h2]
          refine ⟨?_, ?_, ?_⟩ <;>
            · rw [hL]
              intro t ht h
              fin_cases ht <;> first | rfl | exact absurd h (by decide)

/-- Witness for C4: the final transfer of the artifact reduction plus super
resolution path carries multiplier 1 into dst_img. -/
theorem transfer_scales_spec_witness :
    (NvTransfer.mk NvBuffer.gpu_dst_tmp_img NvBuffer.dst_img 1).scale = 1 :=
  (transfer_scales_spec true S_TYPE_SR).2.2
    ⟨NvBuffer.gpu_dst_tmp_img, NvBuffer.dst_img, 1⟩
    (by simp [process_texture_superres, S_TYPE_SR, S_TYPE_NONE, S_TYPE_UP]) rfl

/-- Claim C5: when a stage invocation fails with the transient device fault
status (and stream recreation succeeds), the execution stream is recreated
(fresh generation, alive), both stage handles are flagged for destruction
and the image set for reallocation, the frame is aborted, and
processing_stopped is left clear; any other failure status instead sets
processing_stopped and aborts the frame without any of the reset actions. -/
theorem cuda_fault_reset_spec (s : nv_superresolution_data) :
    ((process_run_result NvStatus.err_cuda true s).1.stream_gen = s.stream_gen + 1 ∧
     (process_run_result NvStatus.err_cuda true s).1.stream_alive = true ∧
     (process_run_result NvStatus.err_cuda true s).1.destroy_ar = true ∧
     (process_run_result NvStatus.err_cuda true s).1.destroy_sr = true ∧
     (process_run_result NvStatus.err_cuda true s).1.are_images_allocated = false ∧
     (process_run_result NvStatus.err_cuda true s).1.processing_stopped = false ∧
     (process_run_result NvStatus.err_cuda true s).2 = false) ∧
    (∀ st : NvStatus, st ≠ NvStatus.err_cuda → st ≠ NvStatus.success →
       process_run_result st true s = ({s with processing_stopped := true}, false)) := by
  constructor
  · refine ⟨?_, ?_, ?_, ?_, ?_, ?_, ?_⟩ <;>
      simp [process_run_result, nv_superres_filter_reset, create_cuda,
        nv_superres_filter_destroy]
  · intro st h1 h2
    simp [process_run_result, h1, h2]

/-- Witness for C5: a generic SDK error during a stage run leads to the
fatal stop, not to the reset path. -/
theorem cuda_fault_reset_spec_witness :
    process_run_result (NvStatus.err_other 42) true initial_filter_data =
      ({initial_filter_data with processing_stopped := true}, false) :=
  (cuda_fault_reset_spec initial_filter_data).2 (NvStatus.err_other 42)
    (by simp) (by simp)

/-- Claim C6 counterexample: a stage load failure with a status other than
the resolution error sets the terminal processing_stopped flag but does not
queue any teardown: the destroying flag stays false and the stage handle is
not released, so the failure does not escalate to full pipeline teardown as
the claim states. -/
theorem load_fx_fatal_no_teardown :
    (load_ar_fx (NvStatus.err_other 7) initial_filter_data).1.processing_stopped = true ∧
    (load_ar_fx (NvStatus.err_other 7) initial_filter_data).1.destroying = false ∧
    (load_ar_fx (NvStatus.err_other 7) initial_filter_data).1.ar_handle =
      initial_filter_data.ar_handle :=
  ⟨rfl, rfl, rfl⟩

/-- Claim C6 as amended: a stage load failure with the resolution
unsupported status is non fatal: the user visible warning is shown, the
reload flag of the stage is cleared, the load reports failure (the stage
stays unusable for the current geometry) and processing_stopped is
untouched; a load failure with any other status is fatal in the sense that
it sets the terminal processing_stopped flag and reports failure, while
leaving every other field (in particular the destroying flag: no teardown
is queued) unchanged. -/
theorem load_fx_error_spec (s : nv_superresolution_data) (st : NvStatus) :
    ((load_ar_fx NvStatus.err_resolution s).1.warning_ar_visible = true ∧
     (load_ar_fx NvStatus.err_resolution s).1.reload_ar_fx = false ∧
     (load_ar_fx NvStatus.err_resolution s).1.processing_stopped = s.processing_stopped ∧
     (load_ar_fx NvStatus.err_resolution s).1.destroying = s.destroying ∧
     (load_ar_fx NvStatus.err_resolution s).2 = false) ∧
    (st ≠ NvStatus.success → st ≠ NvStatus.err_resolution →
       load_ar_fx st s = ({s with processing_stopped := true}, false)) ∧
    ((load_sr_fx NvStatus.err_resolution s).1.warning_sr_visible = true ∧
     (load_sr_fx NvStatus.err_resolution s).1.reload_sr_fx = false ∧
     (load_sr_fx NvStatus.err_resolution s).1.processing_stopped = s.processing_stopped ∧
     (load_sr_fx NvStatus.err_resolution s).1.destroying = s.destroying ∧
     (load_sr_fx NvStatus.err_resolution s).2 = false) ∧
    (st ≠ NvStatus.success → st ≠ NvStatus.err_resolution →
       load_sr_fx st s = ({s with processing_stopped := true}, false)) := by
  refine ⟨⟨rfl, rfl, rfl, rfl, rfl⟩, ?_, ⟨rfl, rfl, rfl, rfl, rfl⟩, ?_⟩ <;>
    · intro h1 h2
      simp [load_ar_fx, load_sr_fx, h1, h2]

/-- Witness for C6: a generic load failure on both stages at the initial
state. -/
theorem load_fx_error_spec_witness :
    load_ar_fx (NvStatus.err_other 3) initial_filter_data =
      ({initial_filter_data with processing_stopped := true}, false) ∧
    load_sr_fx (NvStatus.err_other 3) initial_filter_data =
      ({initial_filter_data with processing_stopped := true}, false) :=
  ⟨(load_fx_error_spec initial_filter_data (NvStatus.err_other 3)).2.1
      (by simp) (by simp),
   (load_fx_error_spec initial_filter_data (NvStatus.err_other 3)).2.2.2
      (by simp) (by simp)⟩

/-- Claim C7: a missing buffer with a given positive envelope size is
created and allocated at the envelope size, ends at the requested logical
size, and is resized down exactly when the envelope differs from the
requested size; an existing buffer receives a single in place realloc and
no create, alloc or destroy call. -/
theorem alloc_image_spec (buffer : Option NvCVImage) (w h w2 h2 : Nat) :
    (buffer = none → 0 < w2 → 0 < h2 →
       (alloc_image buffer w h w2 h2).1 = ⟨w, h⟩ ∧
       (alloc_image buffer w h w2 h2).2.take 2 =
         [NvImageCall.create w2 h2, NvImageCall.alloc w2 h2] ∧
       ((h2 ≠ h ∨ w2 ≠ w) →
          (alloc_image buffer w h w2 h2).2 =
            [NvImageCall.create w2 h2, NvImageCall.alloc w2 h2,
             NvImageCall.realloc w h]) ∧
       (h2 = h → w2 = w →
          (alloc_image buffer w h w2 h2).2 =
            [NvImageCall.create w2 h2, NvImageCall.alloc w2 h2])) ∧
    (∀ b : NvCVImage, buffer = some b →
       (alloc_image buffer w h w2 h2).2 =
         [NvImageCall.realloc (if 0 < w2 then w2 else w) (if 0 < h2 then h2 else h)] ∧
       ∀ c ∈ (alloc_image buffer w h w2 h2).2,
         (∀ cw ch : Nat, c ≠ NvImageCall.create cw ch) ∧
         (∀ cw ch : Nat, c ≠ NvImageCall.alloc cw ch) ∧ c ≠ NvImageCall.destroy) := by
  constructor
  · rintro rfl hw2 hh2
    by_cases hne : h2 ≠ h ∨ w2 ≠ w
    · refine ⟨?_, ?_, fun _ => ?_, fun he1 he2 => absurd hne (by simp [he1, he2])⟩ <;>
        simp [alloc_image, hw2, hh2, hne]
    · push_neg at hne
      obtain ⟨he1, he2⟩ := hne
      subst he1
      subst he2
      refine ⟨?_, ?_, fun hc => absurd hc (by simp), fun _ _ => ?_⟩ <;>
        simp [alloc_image, hw2, hh2]
  · rintro b rfl
    refine ⟨rfl, ?_⟩
    intro c hc
    simp only [alloc_image, List.mem_singleton] at hc
    subst hc
    exact ⟨fun cw ch => by simp, fun cw ch => by simp, by simp⟩

/-- Witness for C7: the staging buffer case, logical 160x90 with envelope
1920x1080, and an in place resize of an existing buffer. -/
theorem alloc_image_spec_witness :
    (alloc_image none 160 90 1920 1080).2 =
      [NvImageCall.create 1920 1080, NvImageCall.alloc 1920 1080,
       NvImageCall.realloc 160 90] ∧
    (alloc_image (some ⟨64, 64⟩) 160 90 1920 1080).2 = [NvImageCall.realloc 1920 1080] :=
  ⟨((alloc_image_spec none 160 90 1920 1080).1 rfl (by decide) (by decide)).2.2.1
      (by decide),
   by simpa using ((alloc_image_spec (some ⟨64, 64⟩) 160 90 1920 1080).2 ⟨64, 64⟩ rfl).1⟩

/-- Membership in a conditional singleton forces the element. -/
theorem mem_td_opt {x e : TDEvent} {cond : Bool} (h : x ∈ td_opt cond e) : x = e := by
  unfold td_opt at h
  split at h
  · simpa using h
  · simp at h

/-- Claim C8: teardown returns none (performs nothing) while the executor
is mid frame; completion implies the executor was idle; a completed
teardown trace raises the stop flag first, exits the wait second, and
everything after those two steps is a release event, with the stop flag
set in the final state; and a second teardown request after a first one is
a no op that queues nothing, so the actual release sequence runs at most
once and nothing is double freed. -/
theorem teardown_spec :
    (∀ s : nv_superresolution_data, s.is_processing = true →
       nv_superres_filter_actual_destroy s = none) ∧
    (∀ (s : nv_superresolution_data) (p : nv_superresolution_data × List TDEvent),
       nv_superres_filter_actual_destroy s = some p → s.is_processing = false) ∧
    (∀ (s : nv_superresolution_data) (p : nv_superresolution_data × List TDEvent),
       nv_superres_filter_actual_destroy s = some p →
         p.2.take 2 = [TDEvent.set_stopped, TDEvent.wait_exit] ∧
         (∀ e ∈ p.2.drop 2, is_free_event e = true) ∧
         p.1.processing_stopped = true) ∧
    (∀ s : nv_superresolution_data,
       nv_superres_filter_destroy ((nv_superres_filter_destroy s).1) =
         ((nv_superres_filter_destroy s).1, false)) := by
  refine ⟨?_, ?_, ?_, ?_⟩
  · intro s h
    simp [nv_superres_filter_actual_destroy, h]
  · intro s p hp
    by_cases h : s.is_processing = true
    · simp [nv_superres_filter_actual_destroy, h] at hp
    · simpa using h
  · intro s p hp
    unfold nv_superres_filter_actual_destroy at hp
    simp only [] at hp
    split at hp
    · exact absurd hp (by simp)
    · rw [Option.some_inj] at hp
      subst hp
      refine ⟨rfl, ?_, rfl⟩
      intro e he
      simp only [List.cons_append, List.nil_append, List.drop_succ_cons,
        List.drop_zero, List.append_assoc, List.mem_append, List.mem_singleton] at he
      rcases he with h | h | h | h | h | h | h | h | h
      · rw [mem_td_opt h]; rfl
      · rw [mem_td_opt h]; rfl
      · rw [mem_td_opt h]; rfl
      · rw [mem_td_opt h]; rfl
      · rw [mem_td_opt h]; rfl
      · rw [mem_td_opt h]; rfl
      · rw [mem_td_opt h]; rfl
      · rw [mem_td_opt h]; rfl
      · rw [h]; rfl
  · intro s
    by_cases h : s.destroying <;> simp [nv_superres_filter_destroy, h]

/-- Witness for C8: with the executor mid frame the teardown task performs
nothing, and a second teardown request at the initial state queues
nothing. -/
theorem teardown_spec_witness :
    nv_superres_filter_actual_destroy
      {initial_filter_data with is_processing := true} = none ∧
    nv_superres_filter_destroy ((nv_superres_filter_destroy initial_filter_data).1) =
      ((nv_superres_filter_destroy initial_filter_data).1, false) :=
  ⟨teardown_spec.1 {initial_filter_data with is_processing := true} rfl,
   teardown_spec.2.2.2 initial_filter_data⟩

/-- Replacing the scale field by its own value is the identity. -/
theorem set_scale_self (x : nv_superresolution_data) :
    ({x with scale := x.scale} : nv_superresolution_data) = x := by
  cases x
  rfl

/-- The type step establishes the settings type. -/
theorem upd_type_type (v : obs_settings) (s : nv_superresolution_data) :
    (upd_type v s).type = v.type := by
  unfold upd_type
  split_ifs <;> simp_all

/-- The type step does not touch the scale field. -/
theorem upd_type_pres (v : obs_settings) (s : nv_superresolution_data) :
    (upd_type v s).scale = s.scale := by
  unfold upd_type
  split_ifs <;> rfl

/-- The sr mode step establishes the settings sr mode. -/
theorem upd_sr_mode_sr_mode (v : obs_settings) (s : nv_superresolution_data) :
    (upd_sr_mode v s).sr_mode = v.sr_mode := by
  unfold upd_sr_mode
  split_ifs <;> simp_all

/-- The sr mode step does not touch the type and scale fields. -/
theorem upd_sr_mode_pres (v : obs_settings) (s : nv_superresolution_data) :
    (upd_sr_mode v s).type = s.type ∧ (upd_sr_mode v s).scale = s.scale := by
  unfold upd_sr_mode
  split_ifs <;> exact ⟨rfl, rfl⟩

/-- The artifact reduction toggle step establishes the settings toggle. -/
theorem upd_apply_ar_apply_ar (v : obs_settings) (s : nv_superresolution_data) :
    (upd_apply_ar v s).apply_ar = v.apply_ar := by
  unfold upd_apply_ar
  split_ifs <;> simp_all

/-- The artifact reduction toggle step does not touch the type, sr mode and
scale fields. -/
theorem upd_apply_ar_pres (v : obs_settings) (s : nv_superresolution_data) :
    (upd_apply_ar v s).type = s.type ∧ (upd_apply_ar v s).sr_mode = s.sr_mode ∧
      (upd_apply_ar v s).scale = s.scale := by
  unfold upd_apply_ar
  split_ifs <;> exact ⟨rfl, rfl, rfl⟩

/-- The artifact reduction mode step establishes the settings ar mode while
artifact reduction is on. -/
theorem upd_ar_mode_ar_mode (v : obs_settings) (s : nv_superresolution_data)
    (h : s.apply_ar = true) :
    (upd_ar_mode v s).ar_mode = v.ar_mode := by
  unfold upd_ar_mode
  split_ifs <;> simp_all

/-- The artifact reduction mode step does not touch the type, sr mode,
toggle and scale fields. -/
theorem upd_ar_mode_pres (v : obs_settings) (s : nv_superresolution_data) :
    (upd_ar_mode v s).type = s.type ∧ (upd_ar_mode v s).sr_mode = s.sr_mode ∧
      (upd_ar_mode v s).apply_ar = s.apply_ar ∧ (upd_ar_mode v s).scale = s.scale := by
  unfold upd_ar_mode
  split_ifs <;> exact ⟨rfl, rfl, rfl, rfl⟩

/-- After the strength step for the upscaling type the strength is within
EPSILON of the settings value. -/
theorem upd_strength_close (v : obs_settings) (s : nv_superresolution_data)
    (hv : v.type = S_TYPE_UP) :
    ¬ (EPSILON < |v.strength - (upd_strength v s).strength|) := by
  unfold upd_strength
  split_ifs with hcond
  · simp [EPSILON]
  · intro hc
    exact hcond ⟨hv, hc⟩

/-- The strength step does not touch the type, sr mode, toggle, ar mode and
scale fields. -/
theorem upd_strength_pres (v : obs_settings) (s : nv_superresolution_data) :
    (upd_strength v s).type = s.type ∧ (upd_strength v s).sr_mode = s.sr_mode ∧
      (upd_strength v s).apply_ar = s.apply_ar ∧ (upd_strength v s).ar_mode = s.ar_mode ∧
      (upd_strength v s).scale = s.scale := by
  unfold upd_strength
  split_ifs <;> exact ⟨rfl, rfl, rfl, rfl, rfl⟩

/-- After an update the type field holds the settings value. -/
theorem update_type_eq (s : nv_superresolution_data) (v : obs_settings) :
    (nv_superres_filter_update s v).type = v.type := by
  unfold nv_superres_filter_update
  rw [(upd_strength_pres v _).1, (upd_ar_mode_pres v _).1, (upd_apply_ar_pres v _).1,
      (upd_sr_mode_pres v _).1, upd_type_type]

/-- After an update the sr mode field holds the settings value. -/
theorem update_sr_mode_eq (s : nv_superresolution_data) (v : obs_settings) :
    (nv_superres_filter_update s v).sr_mode = v.sr_mode := by
  unfold nv_superres_filter_update
  rw [(upd_strength_pres v _).2.1, (upd_ar_mode_pres v _).2.1, (upd_apply_ar_pres v _).2.1,
      upd_sr_mode_sr_mode]

/-- After an update the artifact reduction toggle holds the settings
value. -/
theorem update_apply_ar_eq (s : nv_superresolution_data) (v : obs_settings) :
    (nv_superres_filter_update s v).apply_ar = v.apply_ar := by
  unfold nv_superres_filter_update
  rw [(upd_strength_pres v _).2.2.1, (upd_ar_mode_pres v _).2.2.1, upd_apply_ar_apply_ar]

/-- After an update the scale field holds the settings value. -/
theorem update_scale_eq (s : nv_superresolution_data) (v : obs_settings) :
    (nv_superres_filter_update s v).scale = v.scale := by
  unfold nv_superres_filter_update
  rw [(upd_strength_pres v _).2.2.2.2, (upd_ar_mode_pres v _).2.2.2,
      (upd_apply_ar_pres v _).2.2, (upd_sr_mode_pres v _).2, upd_type_pres]

/-- After an update with artifact reduction enabled the ar mode field holds
the settings value. -/
theorem update_ar_mode_eq (s : nv_superresolution_data) (v : obs_settings)
    (hv : v.apply_ar = true) :
    (nv_superres_filter_update s v).ar_mode = v.ar_mode := by
  unfold nv_superres_filter_update
  rw [(upd_strength_pres v _).2.2.2.1]
  exact upd_ar_mode_ar_mode v _ (by rw [upd_apply_ar_apply_ar]; exact hv)

/-- After an update for the upscaling type the strength field is within
EPSILON of the settings value. -/
theorem update_strength_close (s : nv_superresolution_data) (v : obs_settings)
    (hv : v.type = S_TYPE_UP) :
    ¬ (EPSILON < |v.strength - (nv_superres_filter_update s v).strength|) := by
  unfold nv_superres_filter_update
  exact upd_strength_close v _ hv

/-- The type step is the identity when the type already matches. -/
theorem upd_type_noop (v : obs_settings) (s : nv_superresolution_data)
    (h : s.type = v.type) : upd_type v s = s := by
  unfold upd_type
  rw [if_neg (by simp [h])]

/-- The sr mode step is the identity when the sr mode already matches. -/
theorem upd_sr_mode_noop (v : obs_settings) (s : nv_superresolution_data)
    (h : s.sr_mode = v.sr_mode) : upd_sr_mode v s = s := by
  unfold upd_sr_mode
  rw [if_neg (by simp [h])]

/-- The toggle step is the identity when the toggle already matches. -/
theorem upd_apply_ar_noop (v : obs_settings) (s : nv_superresolution_data)
    (h : s.apply_ar = v.apply_ar) : upd_apply_ar v s = s := by
  unfold upd_apply_ar
  rw [if_neg (by simp [h])]

/-- The ar mode step is the identity when the toggle matches and, while
artifact reduction is on, the ar mode already matches. -/
theorem upd_ar_mode_noop (v : obs_settings) (s : nv_superresolution_data)
    (h1 : s.apply_ar = v.apply_ar) (h2 : v.apply_ar = true → s.ar_mode = v.ar_mode) :
    upd_ar_mode v s = s := by
  unfold upd_ar_mode
  rw [if_neg]
  rintro ⟨a, b⟩
  exact b (h2 (by rw [← h1]; exact a))

/-- The strength step is the identity when the strength is already within
EPSILON for the upscaling type. -/
theorem upd_strength_noop (v : obs_settings) (s : nv_superresolution_data)
    (h : v.type = S_TYPE_UP → ¬ (EPSILON < |v.strength - s.strength|)) :
    upd_strength v s = s := by
  unfold upd_strength
  rw [if_neg]
  rintro ⟨a, b⟩
  exact h a b

/-- An update whose guards are all already satisfied leaves the state
unchanged. -/
theorem update_noop (s1 : nv_superresolution_data) (v : obs_settings)
    (ht : s1.type = v.type) (hsr : s1.sr_mode = v.sr_mode)
    (har : s1.apply_ar = v.apply_ar) (hsc : s1.scale = v.scale)
    (harm : v.apply_ar = true → s1.ar_mode = v.ar_mode)
    (hstr : v.type = S_TYPE_UP → ¬ (EPSILON < |v.strength - s1.strength|)) :
    nv_superres_filter_update s1 v = s1 := by
  have h0 : ({s1 with scale := v.scale} : nv_superresolution_data) = s1 := by
    rw [← hsc]
  unfold nv_superres_filter_update
  rw [h0, upd_type_noop v s1 ht, upd_sr_mode_noop v s1 hsr, upd_apply_ar_noop v s1 har,
      upd_ar_mode_noop v s1 har harm, upd_strength_noop v s1 hstr]

/-- Applying the same settings twice leaves the state of the first
application unchanged. -/
theorem update_idem (s : nv_superresolution_data) (v : obs_settings) :
    nv_superres_filter_update (nv_superres_filter_update s v) v =
      nv_superres_filter_update s v :=
  update_noop (nv_superres_filter_update s v) v
    (update_type_eq s v) (update_sr_mode_eq s v) (update_apply_ar_eq s v)
    (update_scale_eq s v) (fun hv => update_ar_mode_eq s v hv)
    (fun hv => update_strength_close s v hv)

/-- Claim C9: applying an identical configuration a second time immediately
after a first application leaves every reload, destroy and buffer
invalidation flag exactly as the first application left it; no flag is
newly set. -/
theorem update_idempotent_flags (s : nv_superresolution_data) (v : obs_settings) :
    (nv_superres_filter_update (nv_superres_filter_update s v) v).reload_ar_fx =
      (nv_superres_filter_update s v).reload_ar_fx ∧
    (nv_superres_filter_update (nv_superres_filter_update s v) v).reload_sr_fx =
      (nv_superres_filter_update s v).reload_sr_fx ∧
    (nv_superres_filter_update (nv_superres_filter_update s v) v).destroy_ar =
      (nv_superres_filter_update s v).destroy_ar ∧
    (nv_superres_filter_update (nv_superres_filter_update s v) v).destroy_sr =
      (nv_superres_filter_update s v).destroy_sr ∧
    (nv_superres_filter_update (nv_superres_filter_update s v) v).are_images_allocated =
      (nv_superres_filter_update s v).are_images_allocated := by
  rw [update_idem]
  exact ⟨rfl, rfl, rfl, rfl, rfl⟩

/-- Claim C10: the width and height callbacks report the scaled output
dimensions exactly when the target is valid and the terminal stop flag is
clear, and in every other state they report the unmodified source target
dimensions. -/
theorem filter_size_reporting_spec (s : nv_superresolution_data) :
    (s.is_target_valid = true → s.processing_stopped = false →
       nv_superres_filter_width s = s.out_width ∧
       nv_superrer_filter_height s = s.out_height) ∧
    (s.is_target_valid = false ∨ s.processing_stopped = true →
       nv_superres_filter_width s = s.target_width ∧
       nv_superrer_filter_height s = s.target_height) := by
  constructor
  · intro h1 h2
    simp [nv_superres_filter_width, nv_superrer_filter_height, h1, h2]
  · intro hcase
    rcases hcase with h | h <;>
      simp [nv_superres_filter_width, nv_superrer_filter_height, h]

/-- Witness for C10: a valid target reports the scaled size, a stopped
filter reports the source size. -/
theorem filter_size_reporting_spec_witness :
    nv_superres_filter_width
      {initial_filter_data with
        is_target_valid := true, out_width := 1920,
        out_height := 1080, target_width := 1280, target_height := 720} = 1920 ∧
    nv_superrer_filter_height
      {initial_filter_data with
        processing_stopped := true, out_height := 1080,
        target_height := 720} = 720 :=
  ⟨((filter_size_reporting_spec
      {initial_filter_data with
        is_target_valid := true, out_width := 1920,
        out_height := 1080, target_width := 1280, target_height := 720}).1 rfl rfl).1,
   ((filter_size_reporting_spec
      {initial_filter_data with
        processing_stopped := true, out_height := 1080,
        target_height := 720}).2 (Or.inr rfl)).2⟩

end SuperRes
